import Mathlib

/-!
Shallow embedding of `src/src/trainer.py`: the standard `Trainer` and the
`MarginTrainer` (joint network + margin-loss training), covering the step
functions, the dual-optimizer coordination, the criterion learning-rate
schedule, and the checkpoint save/load contract.

The network architectures, the margin-loss internals, the driver-supplied
network optimizer and its scheduler are external collaborators (they are not
part of this file's source); they are abstracted as an `Arch` record of
oracles, while everything `trainer.py` itself computes (control flow, the
`lr_lambda` decay law, the SGD optimizer over the criterion parameters, the
accuracy formula, checkpoint field layout and restore order) is embedded
concretely.  Numeric values are modelled over `ℚ`.
-/

namespace TrainerModel

/-- A batch, unpacked as in trainer.py line 31 / 114: `input_ids, audio, label`.
Labels are class indices. -/
structure Batch where
  input_ids : List (List Int)
  aud : List (List ℚ)
  label : List ℕ
deriving Repr, DecidableEq

/-- The result record returned by every step function:
`{"loss": ..., "acc": ...}` with plain scalar values. -/
structure StepResult where
  loss : ℚ
  acc : ℚ
deriving Repr, DecidableEq

/-- A dynamically-typed Python value, as far as the standard trainer's
criterion call needs: the network output is a tuple of tensor views.
Modelled from the spec: the networks (`models.networks`) are not under
`src/`; per the spec the output exposes `output[0]` (raw class logits) and
`output[1]` (embedding), i.e. a tuple of two 2-D tensors. -/
inductive PyObj where
  | tensor2 (t : List (List ℚ))
  | tuple2 (a b : PyObj)
deriving Repr, DecidableEq

/-- External collaborators of trainer.py, abstracted.
Modelled from the spec: the network forward pass (mode, parameters, batch ↦
the two output views), the margin criterion's value (parameters, embedding,
label ↦ (loss, re-projected logits)), autodiff gradient oracles for the
single backward pass, the driver-supplied network optimizer and its optional
scheduler, and the numeric value of the fixed classification loss. -/
structure Arch where
  NP : Type
  NG : Type
  NOpt : Type
  NSched : Type
  forward : Bool → NP → Batch → List (List ℚ) × List (List ℚ)
  crit : List ℚ → List (List ℚ) → List ℕ → ℚ × List (List ℚ)
  gradNet : NP → List ℚ → Batch → NG
  gradCrit : NP → List ℚ → Batch → List ℚ
  gradStd : NP → Batch → NG
  addNG : NG → NG → NG
  stepNet : NOpt → NP → NG → NOpt × NP
  schedStep : NSched → NSched
  ceVal : List (List ℚ) → List ℕ → ℚ

/-- Gradient accumulation semantics of `loss.backward()`: a fresh gradient is
stored as-is into an empty (`zero_grad`-ed) buffer, otherwise added to the
existing one. -/
def accGrad {G : Type} (add : G → G → G) (old : Option G) (g : G) : G :=
  match old with
  | none => g
  | some g0 => add g0 g

/-- First index attaining the maximum of a row, i.e. the `preds` component of
`torch.max(logits, 1)`. -/
def argmaxAux (best : ℚ) (bestIdx : ℕ) (i : ℕ) : List ℚ → ℕ
  | [] => bestIdx
  | x :: xs => if best < x then argmaxAux x i (i + 1) xs else argmaxAux best bestIdx (i + 1) xs

/-- Argmax index of one logits row (0 for an empty row). -/
def argmaxIdx : List ℚ → ℕ
  | [] => 0
  | x :: xs => argmaxAux x 0 1 xs

/-- The accuracy computation of trainer.py lines 47-48 / 131-132:
`preds = argmax(logits, 1); accuracy = mean((preds == label).float())`. -/
def accuracyOf (logits : List (List ℚ)) (labels : List ℕ) : ℚ :=
  (List.zipWith (fun row l => if argmaxIdx row = l then (1 : ℚ) else 0) logits labels).sum
    / (labels.length : ℚ)

/-- Spec-side definition: the fraction of batch elements whose prediction
equals the label. -/
def fractionCorrect (preds labels : List ℕ) : ℚ :=
  (((preds.zip labels).countP (fun pl => pl.1 == pl.2) : ℕ) : ℚ) / (labels.length : ℚ)

/-- State of the `torch.optim.SGD` instance built over the criterion
parameters at trainer.py lines 92-97 (momentum, weight decay, a lazily
initialised momentum buffer, and the current learning rate held in the
parameter group). -/
structure SGDState where
  lr : ℚ
  momentum : ℚ
  weight_decay : ℚ
  momentum_buffer : Option (List ℚ)
deriving Repr, DecidableEq

/-- One `optimizer.step()` of SGD with momentum (no dampening, no Nesterov):
`d = g + weight_decay * p`; `buf = momentum * buf + d` (or `d` on first use);
`p = p - lr * buf`. -/
def sgdStep (s : SGDState) (params grads : List ℚ) : SGDState × List ℚ :=
  let dp := List.zipWith (fun g p => g + s.weight_decay * p) grads params
  let buf := match s.momentum_buffer with
    | none => dp
    | some b => List.zipWith (fun bi di => s.momentum * bi + di) b dp
  ({ s with momentum_buffer := some buf },
   List.zipWith (fun p bi => p - s.lr * bi) params buf)

/-- State of a `torch.optim.lr_scheduler.LambdaLR` (its `state_dict`:
the base learning rate and the `last_epoch` counter). -/
structure LambdaLRState where
  base_lr : ℚ
  last_epoch : Int
deriving Repr, DecidableEq

/-- The milestone list `[8, 14, 20, 25]` of trainer.py line 104. -/
def milestones : List Int := [8, 14, 20, 25]

/-- The `lr_lambda` closure of trainer.py lines 101-105:
`((epoch+1)/(4+1))**2 if epoch < -1 else 0.1 ** len([m for m in [8,14,20,25] if m-1 <= epoch])`. -/
def lr_lambda (epoch : Int) : ℚ :=
  if epoch < -1 then (((epoch : ℚ) + 1) / (4 + 1)) ^ 2
  else (1 / 10 : ℚ) ^ (milestones.filter (fun m => decide (m - 1 ≤ epoch))).length

/-- Spec-side definition of the decay law, following the spec's words:
`multiplier = 0.1 ^ (count of milestones m in {8,14,20,25} such that m-1 <= epoch)`. -/
def specDecayMultiplier (epoch : Int) : ℚ :=
  (1 / 10 : ℚ) ^ (milestones.countP (fun m => decide (m - 1 ≤ epoch)))

/-- One `scheduler.step()` of `LambdaLR`: increment `last_epoch` and set the
optimizer's learning rate to `base_lr * lr_lambda(last_epoch)`. -/
def lambdaStep (sc : LambdaLRState) (opt : SGDState) : LambdaLRState × SGDState :=
  let le := sc.last_epoch + 1
  ({ sc with last_epoch := le }, { opt with lr := sc.base_lr * lr_lambda le })

/-- The criterion argument handed to a trainer constructor, tagged by its
Python class so that the `isinstance(criterion, CombinedMarginLoss)` check of
trainer.py lines 84-86 can be expressed.  A `CombinedMarginLoss` carries its
learnable parameters. -/
inductive Criterion where
  | combinedMarginLoss (params : List ℚ)
  | crossEntropyLoss
  | mseLoss
deriving Repr, DecidableEq

/-- State of a standard `Trainer` (trainer.py lines 13-73): mode flag,
network parameters and gradient buffer, the driver-supplied optimizer state,
and the configured fixed criterion (an arbitrary Python callable). -/
structure SState (A : Arch) where
  mode_train : Bool
  netParams : A.NP
  netGrad : Option A.NG
  optState : A.NOpt
  criterion : PyObj → List ℕ → Except String ℚ

/-- Embeds `torch.nn.CrossEntropyLoss` as a Python callable: computes the (abstract)
loss value on a 2-D tensor input and raises a `TypeError` on any non-tensor
input such as the tuple of network output views. -/
def crossEntropyLoss (ceVal : List (List ℚ) → List ℕ → ℚ) :
    PyObj → List ℕ → Except String ℚ
  | PyObj.tensor2 t, ls => Except.ok (ceVal t ls)
  | _, _ => Except.error ("TypeError: cross_entropy_loss(): argument input must be Tensor")

/-- Embeds `Trainer.train_step` (trainer.py lines 26-52): train mode, zero_grad,
forward, `loss = self.criterion(output, label)` — note: the whole output, not
`output[0]` — backward, optimizer step, accuracy from `output[0]`.  A raised
exception propagates with the state mutated so far. -/
def Trainer.train_step (A : Arch) (s : SState A) (b : Batch) :
    Except String StepResult × SState A :=
  let s1 : SState A := { s with mode_train := true, netGrad := none }
  let out := A.forward s1.mode_train s1.netParams b
  match s1.criterion (PyObj.tuple2 (PyObj.tensor2 out.1) (PyObj.tensor2 out.2)) b.label with
  | Except.error e => (Except.error e, s1)
  | Except.ok loss =>
    let s2 : SState A :=
      { s1 with netGrad := some (accGrad A.addNG s1.netGrad (A.gradStd s1.netParams b)) }
    let stepped := match s2.netGrad with
      | none => (s2.optState, s2.netParams)
      | some g => A.stepNet s2.optState s2.netParams g
    let s3 : SState A := { s2 with optState := stepped.1, netParams := stepped.2 }
    (Except.ok { loss := loss, acc := accuracyOf out.1 b.label }, s3)

/-- Embeds `Trainer.test_step` (trainer.py lines 54-73): eval mode, forward under
`no_grad`, `loss = self.criterion(output, label)` (again the whole output),
accuracy from `output[0]`; no parameter, gradient or optimizer mutation. -/
def Trainer.test_step (A : Arch) (s : SState A) (b : Batch) :
    Except String StepResult × SState A :=
  let s1 : SState A := { s with mode_train := false }
  let out := A.forward s1.mode_train s1.netParams b
  let res := (s1.criterion (PyObj.tuple2 (PyObj.tensor2 out.1) (PyObj.tensor2 out.2))
      b.label).map (fun loss => { loss := loss, acc := accuracyOf out.1 b.label })
  (res, s1)

/-- State of a `MarginTrainer` (trainer.py lines 76-197): mode flag, network
parameters/gradients, driver-supplied network optimizer state, the margin
criterion's parameters/gradients, the internally-owned SGD over the criterion
parameters, its `LambdaLR` schedule, the optional driver-supplied network
scheduler, and the resume counters. -/
structure MState (A : Arch) where
  mode_train : Bool
  netParams : A.NP
  netGrad : Option A.NG
  optState : A.NOpt
  critParams : List ℚ
  critGrad : Option (List ℚ)
  opt_criterion : SGDState
  scheduler_criterion : LambdaLRState
  scheduler : Option A.NSched
  start_epoch : Int
  global_step : Int

/-- Embeds `MarginTrainer.__init__` (trainer.py lines 77-106): asserts the criterion
is a `CombinedMarginLoss` (fatal otherwise), then builds the SGD over the
criterion parameters (lr 0.01, momentum 0.9, weight decay 5e-4) and its
`LambdaLR` schedule (whose construction performs the initial step, leaving
`last_epoch = 0` and lr `= 0.01 * lr_lambda 0`). -/
def MarginTrainer.init (A : Arch) (netParams : A.NP) (criterion : Criterion)
    (optState : A.NOpt) (scheduler : Option A.NSched) : Except String (MState A) :=
  match criterion with
  | Criterion.combinedMarginLoss ps =>
      Except.ok
        { mode_train := true
          netParams := netParams
          netGrad := none
          optState := optState
          critParams := ps
          critGrad := none
          opt_criterion :=
            { lr := 1 / 100, momentum := 9 / 10, weight_decay := 5 / 10000
              momentum_buffer := none }
          scheduler_criterion := { base_lr := 1 / 100, last_epoch := 0 }
          scheduler := scheduler
          start_epoch := 0
          global_step := 0 }
  | _ => Except.error ("Criterion must be CombinedMarginLoss")

/-- Embeds `MarginTrainer.train_step` (trainer.py lines 108-136): train mode, zero
both gradient buffers, forward, `loss, logits = self.criterion(output[1],
label)`, one backward pass writing both gradient buffers, then
`optimizer.step()` and `opt_criterion.step()`; accuracy from the re-projected
logits. -/
def MarginTrainer.train_step (A : Arch) (t : MState A) (b : Batch) :
    StepResult × MState A :=
  let t1 : MState A := { t with mode_train := true, netGrad := none, critGrad := none }
  let output := A.forward t1.mode_train t1.netParams b
  let ll := A.crit t1.critParams output.2 b.label
  let t2 : MState A := { t1 with
    netGrad := some (accGrad A.addNG t1.netGrad (A.gradNet t1.netParams t1.critParams b))
    critGrad := some (accGrad (List.zipWith (· + ·)) t1.critGrad
      (A.gradCrit t1.netParams t1.critParams b)) }
  let stepped := match t2.netGrad with
    | none => (t2.optState, t2.netParams)
    | some g => A.stepNet t2.optState t2.netParams g
  let t3 : MState A := { t2 with optState := stepped.1, netParams := stepped.2 }
  let steppedC := match t3.critGrad with
    | none => (t3.opt_criterion, t3.critParams)
    | some g => sgdStep t3.opt_criterion t3.critParams g
  let t4 : MState A := { t3 with opt_criterion := steppedC.1, critParams := steppedC.2 }
  ({ loss := ll.1, acc := accuracyOf ll.2 b.label }, t4)

/-- Embeds `MarginTrainer.test_step` (trainer.py lines 138-157): eval mode, forward
under `no_grad`, loss and logits from the margin criterion on `output[1]`,
accuracy from the logits; no parameter, gradient or optimizer mutation. -/
def MarginTrainer.test_step (A : Arch) (t : MState A) (b : Batch) :
    StepResult × MState A :=
  let t1 : MState A := { t with mode_train := false }
  let output := A.forward t1.mode_train t1.netParams b
  let ll := A.crit t1.critParams output.2 b.label
  ({ loss := ll.1, acc := accuracyOf ll.2 b.label }, t1)

/-- Embeds `MarginTrainer.lr_scheduler` (trainer.py lines 159-162): steps the network
scheduler when configured, then steps the criterion scheduler; the `step` and
`epoch` arguments are never read. -/
def MarginTrainer.lr_scheduler (A : Arch) (t : MState A) (step epoch : Int) : MState A :=
  let t1 : MState A := match t.scheduler with
    | none => t
    | some sch => { t with scheduler := some (A.schedStep sch) }
  let sl := lambdaStep t1.scheduler_criterion t1.opt_criterion
  { t1 with scheduler_criterion := sl.1, opt_criterion := sl.2 }

/-- The checkpoint record written by `save_all_states` and read by
`load_all_states`; each field is `Option`al because a loaded dictionary may
lack any key (absence raises `KeyError` on access). -/
structure Checkpoint (A : Arch) where
  epoch : Option Int
  global_step : Option Int
  state_dict_network : Option A.NP
  state_optimizer : Option A.NOpt
  state_criterion : Option (List ℚ)
  state_lr_scheduler_criterion : Option LambdaLRState
  state_lr_scheduler : Option A.NSched

/-- Embeds `MarginTrainer.save_all_states` (trainer.py lines 164-180): builds the
checkpoint dictionary (including `state_lr_scheduler` only when a network
scheduler is configured) and returns the path
`path/checkpoint_<epoch>_<step>.pt`. -/
def MarginTrainer.save_all_states (A : Arch) (t : MState A) (path : String)
    (global_epoch global_step : Int) : Checkpoint A × String :=
  ({ epoch := some global_epoch
     global_step := some global_step
     state_dict_network := some t.netParams
     state_optimizer := some t.optState
     state_criterion := some t.critParams
     state_lr_scheduler_criterion := some t.scheduler_criterion
     state_lr_scheduler := t.scheduler },
   path ++ "/checkpoint_" ++ toString global_epoch ++ "_" ++ toString global_step ++ ".pt")

/-- Dictionary access `d[key]`: the value when the key is present, otherwise a
`KeyError` carrying the key name and the trainer state at the moment of the
raise. -/
def requireKey {α ε : Type _} (v : Option α) (err : ε) : Except ε α :=
  match v with
  | none => Except.error err
  | some x => Except.ok x

/-- Embeds `MarginTrainer.load_all_states` (trainer.py lines 182-197): restores, in
order, `start_epoch`, `global_step`, network parameters, network-optimizer
state, criterion parameters, criterion-scheduler state, and — only when a
network scheduler is configured — the network-scheduler state.  A missing key
raises a `KeyError`; the error carries the trainer state at the point of the
raise (the sequential assignments already executed persist). -/
def MarginTrainer.load_all_states (A : Arch) (t : MState A) (d : Checkpoint A) :
    Except (String × MState A) (MState A) := do
  let e ← requireKey d.epoch ("epoch", t)
  let t : MState A := { t with start_epoch := e }
  let gs ← requireKey d.global_step ("global_step", t)
  let t : MState A := { t with global_step := gs }
  let np ← requireKey d.state_dict_network ("state_dict_network", t)
  let t : MState A := { t with netParams := np }
  let os ← requireKey d.state_optimizer ("state_optimizer", t)
  let t : MState A := { t with optState := os }
  let cp ← requireKey d.state_criterion ("state_criterion", t)
  let t : MState A := { t with critParams := cp }
  let sc ← requireKey d.state_lr_scheduler_criterion ("state_lr_scheduler_criterion", t)
  let t : MState A := { t with scheduler_criterion := sc }
  match t.scheduler with
  | none => return t
  | some _ =>
    let sn ← requireKey d.state_lr_scheduler ("state_lr_scheduler", t)
    return { t with scheduler := some sn }

/-- The checkpoint keys `load_all_states` reads, in the order it reads them. -/
inductive CkptKey where
  | epoch
  | global_step
  | state_dict_network
  | state_optimizer
  | state_criterion
  | state_lr_scheduler_criterion
  | state_lr_scheduler
deriving Repr, DecidableEq

/-- The Python string name of each checkpoint key. -/
def CkptKey.name : CkptKey → String
  | .epoch => "epoch"
  | .global_step => "global_step"
  | .state_dict_network => "state_dict_network"
  | .state_optimizer => "state_optimizer"
  | .state_criterion => "state_criterion"
  | .state_lr_scheduler_criterion => "state_lr_scheduler_criterion"
  | .state_lr_scheduler => "state_lr_scheduler"

/-- The first key, in restore order, that `load_all_states` would fail to find
in the checkpoint (`state_lr_scheduler` is only consulted when a network
scheduler is configured); `none` when the load succeeds. -/
def firstMissing (A : Arch) (d : Checkpoint A) (schedConfigured : Bool) : Option CkptKey :=
  if d.epoch.isNone then some .epoch
  else if d.global_step.isNone then some .global_step
  else if d.state_dict_network.isNone then some .state_dict_network
  else if d.state_optimizer.isNone then some .state_optimizer
  else if d.state_criterion.isNone then some .state_criterion
  else if d.state_lr_scheduler_criterion.isNone then some .state_lr_scheduler_criterion
  else if schedConfigured && d.state_lr_scheduler.isNone then some .state_lr_scheduler
  else none

/-- The trainer state after the sequential assignments of `load_all_states`
that precede the read of key `k`: the fields for keys before `k` already hold
the checkpoint's values, everything at and after `k` is untouched. -/
def restorePrefix (A : Arch) (t : MState A) (d : Checkpoint A) : CkptKey → MState A
  | .epoch => t
  | .global_step => { t with start_epoch := d.epoch.getD t.start_epoch }
  | .state_dict_network =>
      { t with start_epoch := d.epoch.getD t.start_epoch
               global_step := d.global_step.getD t.global_step }
  | .state_optimizer =>
      { t with start_epoch := d.epoch.getD t.start_epoch
               global_step := d.global_step.getD t.global_step
               netParams := d.state_dict_network.getD t.netParams }
  | .state_criterion =>
      { t with start_epoch := d.epoch.getD t.start_epoch
               global_step := d.global_step.getD t.global_step
               netParams := d.state_dict_network.getD t.netParams
               optState := d.state_optimizer.getD t.optState }
  | .state_lr_scheduler_criterion =>
      { t with start_epoch := d.epoch.getD t.start_epoch
               global_step := d.global_step.getD t.global_step
               netParams := d.state_dict_network.getD t.netParams
               optState := d.state_optimizer.getD t.optState
               critParams := d.state_criterion.getD t.critParams }
  | .state_lr_scheduler =>
      { t with start_epoch := d.epoch.getD t.start_epoch
               global_step := d.global_step.getD t.global_step
               netParams := d.state_dict_network.getD t.netParams
               optState := d.state_optimizer.getD t.optState
               critParams := d.state_criterion.getD t.critParams
               scheduler_criterion := d.state_lr_scheduler_criterion.getD t.scheduler_criterion }

/-- A small concrete architecture used to exercise the trainers on explicit
inputs: rational parameters, a linear toy forward pass and simple oracles. -/
@[reducible] def arch0 : Arch where
  NP := ℚ
  NG := ℚ
  NOpt := ℚ
  NSched := Int
  forward := fun _ p b => ([[p, 1]], [[p + (b.label.length : ℚ), 0]])
  crit := fun cp emb _ => ((cp.headD 0) + ((emb.headD []).headD 0), emb)
  gradNet := fun _ _ _ => 1
  gradCrit := fun _ cp _ => cp.map (fun _ => 1)
  gradStd := fun _ _ => 1
  addNG := fun a b => a + b
  stepNet := fun o p g => (o + 1, p - g)
  schedStep := fun s => s + 1
  ceVal := fun _ _ => 0

/-- A concrete margin-trainer state over `arch0`. -/
def mt0 : MState arch0 where
  mode_train := true
  netParams := 2
  netGrad := none
  optState := 0
  critParams := [3]
  critGrad := none
  opt_criterion :=
    { lr := 1 / 100, momentum := 9 / 10, weight_decay := 5 / 10000, momentum_buffer := none }
  scheduler_criterion := { base_lr := 1 / 100, last_epoch := 0 }
  scheduler := none
  start_epoch := 0
  global_step := 0

/-- A second concrete margin-trainer state (a fresh instance with different
parameters), for round-trip checks. -/
def mt1 : MState arch0 where
  mode_train := true
  netParams := 7
  netGrad := none
  optState := 4
  critParams := [9]
  critGrad := none
  opt_criterion :=
    { lr := 1 / 100, momentum := 9 / 10, weight_decay := 5 / 10000, momentum_buffer := none }
  scheduler_criterion := { base_lr := 1 / 100, last_epoch := 0 }
  scheduler := none
  start_epoch := 0
  global_step := 0

/-- A concrete batch with one element. -/
def batch0 : Batch where
  input_ids := [[1]]
  aud := [[1 / 2]]
  label := [0]

/-- A checkpoint that carries `epoch` and `global_step` but lacks
`state_dict_network` (and everything after it). -/
def d0 : Checkpoint arch0 where
  epoch := some 5
  global_step := some 7
  state_dict_network := none
  state_optimizer := none
  state_criterion := none
  state_lr_scheduler_criterion := none
  state_lr_scheduler := none

/-- A permissive stand-in criterion callable that accepts any input. -/
def okCriterion : PyObj → List ℕ → Except String ℚ := fun _ _ => Except.ok 0

/-- A concrete standard-trainer state with the permissive criterion. -/
def st0 : SState arch0 where
  mode_train := true
  netParams := 2
  netGrad := none
  optState := 0
  criterion := okCriterion

/-- A concrete standard-trainer state configured, as the type hint of
`Trainer.__init__` prescribes, with `torch.nn.CrossEntropyLoss`. -/
def stCE : SState arch0 where
  mode_train := true
  netParams := 2
  netGrad := none
  optState := 0
  criterion := crossEntropyLoss arch0.ceVal

theorem indSum_nonneg (rows : List (List ℚ)) (ls : List ℕ) :
    0 ≤ (List.zipWith (fun row l => if argmaxIdx row = l then (1 : ℚ) else 0) rows ls).sum := by
  induction rows generalizing ls with
  | nil => simp
  | cons r rs ih =>
    cases ls with
    | nil => simp
    | cons l ls' =>
      simp only [List.zipWith_cons_cons, List.sum_cons]
      have h1 : (0 : ℚ) ≤ if argmaxIdx r = l then (1 : ℚ) else 0 := by split <;> norm_num
      have h2 := ih ls'
      linarith

theorem indSum_le_len (rows : List (List ℚ)) (ls : List ℕ) :
    (List.zipWith (fun row l => if argmaxIdx row = l then (1 : ℚ) else 0) rows ls).sum
      ≤ (ls.length : ℚ) := by
  induction rows generalizing ls with
  | nil => simp
  | cons r rs ih =>
    cases ls with
    | nil => simp
    | cons l ls' =>
      simp only [List.zipWith_cons_cons, List.sum_cons, List.length_cons]
      push_cast
      have h1 : (if argmaxIdx r = l then (1 : ℚ) else 0) ≤ 1 := by split <;> norm_num
      have h2 := ih ls'
      linarith

theorem accuracyOf_nonneg (rows : List (List ℚ)) (ls : List ℕ) :
    0 ≤ accuracyOf rows ls :=
  div_nonneg (indSum_nonneg rows ls) (Nat.cast_nonneg _)

theorem accuracyOf_le_one (rows : List (List ℚ)) (ls : List ℕ) (h : 0 < ls.length) :
    accuracyOf rows ls ≤ 1 := by
  have hp : (0 : ℚ) < (ls.length : ℚ) := by exact_mod_cast h
  exact (div_le_one hp).mpr (indSum_le_len rows ls)

theorem accuracyOf_eq_fractionCorrect (rows : List (List ℚ)) (ls : List ℕ) :
    accuracyOf rows ls = fractionCorrect (rows.map argmaxIdx) ls := by
  unfold accuracyOf fractionCorrect
  congr 1
  induction rows generalizing ls with
  | nil => simp
  | cons r rs ih =>
    cases ls with
    | nil => simp
    | cons l ls' =>
      simp only [List.map_cons, List.zip_cons_cons, List.countP_cons, List.zipWith_cons_cons,
        List.sum_cons, beq_iff_eq]
      rw [ih ls']
      by_cases h : argmaxIdx r = l <;> simp [h] <;> push_cast <;> ring

theorem lr_lambda_count (e : Int) (he : 0 ≤ e) :
    lr_lambda e = (1 / 10 : ℚ) ^
      (((if (7 : Int) ≤ e then 1 else 0) + (if (13 : Int) ≤ e then 1 else 0)
        + (if (19 : Int) ≤ e then 1 else 0) + (if (24 : Int) ≤ e then 1 else 0) : ℕ)) := by
  unfold lr_lambda
  rw [if_neg (by omega)]
  congr 1
  simp only [milestones, List.filter_cons, List.filter_nil, decide_eq_true_eq]
  norm_num
  split_ifs <;> simp <;> omega

/-- C3 counterexample input: at epoch index 7 the multiplier computed by the
code is already 0.1 (the milestone test is `m - 1 <= epoch` with `m = 8`),
refuting the claimed value 1.0 for epochs 0 through 7. -/
theorem multiplier_epoch7_cex : lr_lambda 7 = 1 / 10 ∧ lr_lambda 7 ≠ 1 := by
  have h : lr_lambda 7 = 1 / 10 := by
    rw [lr_lambda_count 7 (by norm_num), if_pos (by norm_num), if_neg (by norm_num),
      if_neg (by norm_num), if_neg (by norm_num)]
    norm_num
  exact ⟨h, by rw [h]; norm_num⟩

/-- C3 (amended): the criterion learning-rate-schedule multiplier is piecewise
constant with value 1.0 for epochs 0 through 6, 0.1 for epochs 7 through 12,
0.01 for epochs 13 through 18, 0.001 for epochs 19 through 23, and 0.0001 for
every epoch 24 and above. -/
theorem multiplier_piecewise (e : Int) (he : 0 ≤ e) :
    (e ≤ 6 → lr_lambda e = 1) ∧
    (7 ≤ e ∧ e ≤ 12 → lr_lambda e = 1 / 10) ∧
    (13 ≤ e ∧ e ≤ 18 → lr_lambda e = 1 / 100) ∧
    (19 ≤ e ∧ e ≤ 23 → lr_lambda e = 1 / 1000) ∧
    (24 ≤ e → lr_lambda e = 1 / 10000) := by
  refine ⟨fun h => ?_, fun h => ?_, fun h => ?_, fun h => ?_, fun h => ?_⟩
  · rw [lr_lambda_count e he, if_neg (by omega), if_neg (by omega), if_neg (by omega),
      if_neg (by omega)]
    norm_num
  · rw [lr_lambda_count e he, if_pos (by omega), if_neg (by omega), if_neg (by omega),
      if_neg (by omega)]
    norm_num
  · rw [lr_lambda_count e he, if_pos (by omega), if_pos (by omega), if_neg (by omega),
      if_neg (by omega)]
    norm_num
  · rw [lr_lambda_count e he, if_pos (by omega), if_pos (by omega), if_pos (by omega),
      if_neg (by omega)]
    norm_num
  · rw [lr_lambda_count e he, if_pos (by omega), if_pos (by omega), if_pos (by omega),
      if_pos (by omega)]
    norm_num

/-- C3 witness: the amended piecewise law instantiated at epoch 7. -/
theorem multiplier_piecewise_witness :
    (0 : Int) ≤ 7 ∧
    (((7 : Int) ≤ 6 → lr_lambda 7 = 1) ∧
     ((7 : Int) ≤ 7 ∧ (7 : Int) ≤ 12 → lr_lambda 7 = 1 / 10) ∧
     ((13 : Int) ≤ 7 ∧ (7 : Int) ≤ 18 → lr_lambda 7 = 1 / 100) ∧
     ((19 : Int) ≤ 7 ∧ (7 : Int) ≤ 23 → lr_lambda 7 = 1 / 1000) ∧
     ((24 : Int) ≤ 7 → lr_lambda 7 = 1 / 10000)) :=
  ⟨by decide, multiplier_piecewise 7 (by decide)⟩

/-- C4: for every non-negative epoch index the multiplier computed by the
code's `lr_lambda` equals the spec's decay law
`0.1 ^ (count of milestones m in {8,14,20,25} with m - 1 <= epoch)`. -/
theorem multiplier_matches_decay_law (e : Int) (he : 0 ≤ e) :
    lr_lambda e = specDecayMultiplier e := by
  unfold lr_lambda specDecayMultiplier
  rw [if_neg (by omega), List.countP_eq_length_filter]

/-- C4 witness: the decay law instantiated at epoch 9. -/
theorem multiplier_matches_decay_law_witness :
    (0 : Int) ≤ 9 ∧ lr_lambda 9 = specDecayMultiplier 9 :=
  ⟨by decide, multiplier_matches_decay_law 9 (by decide)⟩

/-- C6: `MarginTrainer.train_step` zeroes both gradient buffers before the
forward pass (the result is independent of whatever gradients were present on
entry), computes the loss by applying the margin criterion to `output[1]` and
the label (obtaining a scalar loss and re-projected logits), performs exactly
one backward pass (the stored gradients are the single-batch gradients, not
an accumulation), and then steps both the network optimizer and the criterion
optimizer on those gradients. -/
theorem margin_train_step_structure (A : Arch) (t : MState A) (b : Batch) :
    (∀ g1 g2, MarginTrainer.train_step A { t with netGrad := g1, critGrad := g2 } b
        = MarginTrainer.train_step A t b) ∧
    MarginTrainer.train_step A t b =
      ({ loss := (A.crit t.critParams (A.forward true t.netParams b).2 b.label).1
         acc := accuracyOf (A.crit t.critParams (A.forward true t.netParams b).2 b.label).2
           b.label },
       { t with
         mode_train := true
         netGrad := some (A.gradNet t.netParams t.critParams b)
         critGrad := some (A.gradCrit t.netParams t.critParams b)
         optState := (A.stepNet t.optState t.netParams (A.gradNet t.netParams t.critParams b)).1
         netParams := (A.stepNet t.optState t.netParams (A.gradNet t.netParams t.critParams b)).2
         opt_criterion :=
           (sgdStep t.opt_criterion t.critParams (A.gradCrit t.netParams t.critParams b)).1
         critParams :=
           (sgdStep t.opt_criterion t.critParams (A.gradCrit t.netParams t.critParams b)).2 }) :=
  ⟨fun _ _ => rfl, rfl⟩

/-- C7: `test_step` of both trainers only toggles the evaluation-mode flag —
network parameters, gradient buffers, optimizer states, scheduler states and
the resume counters are untouched — and a repeated `test_step` on the same
batch returns the identical result. -/
theorem test_step_frame_and_repeat (A : Arch) (t : MState A) (s : SState A) (b : Batch) :
    (MarginTrainer.test_step A t b).2 = { t with mode_train := false } ∧
    (MarginTrainer.test_step A (MarginTrainer.test_step A t b).2 b).1
      = (MarginTrainer.test_step A t b).1 ∧
    (Trainer.test_step A s b).2 = { s with mode_train := false } ∧
    (Trainer.test_step A (Trainer.test_step A s b).2 b).1 = (Trainer.test_step A s b).1 :=
  ⟨rfl, rfl, rfl, rfl⟩

/-- C9: constructing a `MarginTrainer` with any criterion that is not a
`CombinedMarginLoss` fails with the assertion error, before any batch is
processed (no trainer state is ever produced). -/
theorem init_rejects_non_margin_criterion (A : Arch) (np : A.NP) (c : Criterion)
    (o : A.NOpt) (sch : Option A.NSched)
    (hc : ∀ ps, c ≠ Criterion.combinedMarginLoss ps) :
    MarginTrainer.init A np c o sch = Except.error ("Criterion must be CombinedMarginLoss") := by
  cases c with
  | combinedMarginLoss ps => exact absurd rfl (hc ps)
  | crossEntropyLoss => rfl
  | mseLoss => rfl

/-- C9 witness: a cross-entropy criterion is rejected at construction. -/
theorem init_rejects_non_margin_criterion_witness :
    (∀ ps, Criterion.crossEntropyLoss ≠ Criterion.combinedMarginLoss ps) ∧
    MarginTrainer.init arch0 (2 : ℚ) Criterion.crossEntropyLoss (0 : ℚ) none
      = Except.error ("Criterion must be CombinedMarginLoss") :=
  ⟨fun _ h => Criterion.noConfusion h,
   init_rejects_non_margin_criterion arch0 2 Criterion.crossEntropyLoss 0 none
     (fun _ h => Criterion.noConfusion h)⟩

/-- C10: `MarginTrainer.lr_scheduler` never reads its `step` and `epoch`
arguments — any two argument pairs from the same state produce the same
state — and it advances the network scheduler (when configured) and the
criterion scheduler by exactly one step on their internal counters, touching
nothing else. -/
theorem lr_scheduler_ignores_arguments (A : Arch) (t : MState A) (s1 e1 s2 e2 : Int) :
    MarginTrainer.lr_scheduler A t s1 e1 = MarginTrainer.lr_scheduler A t s2 e2 ∧
    (MarginTrainer.lr_scheduler A t s1 e1).scheduler = t.scheduler.map A.schedStep ∧
    (MarginTrainer.lr_scheduler A t s1 e1).scheduler_criterion
      = (lambdaStep t.scheduler_criterion t.opt_criterion).1 ∧
    (MarginTrainer.lr_scheduler A t s1 e1).opt_criterion
      = (lambdaStep t.scheduler_criterion t.opt_criterion).2 ∧
    (MarginTrainer.lr_scheduler A t s1 e1).mode_train = t.mode_train ∧
    (MarginTrainer.lr_scheduler A t s1 e1).netParams = t.netParams ∧
    (MarginTrainer.lr_scheduler A t s1 e1).critParams = t.critParams ∧
    (MarginTrainer.lr_scheduler A t s1 e1).optState = t.optState ∧
    (MarginTrainer.lr_scheduler A t s1 e1).start_epoch = t.start_epoch ∧
    (MarginTrainer.lr_scheduler A t s1 e1).global_step = t.global_step := by
  refine ⟨rfl, ?_, ?_, ?_, ?_, ?_, ?_, ?_, ?_, ?_⟩ <;>
    cases h : t.scheduler <;>
      simp [MarginTrainer.lr_scheduler, lambdaStep, h]

/-- C5 (what the code actually does): with the configured
`torch.nn.CrossEntropyLoss`, both step functions of the standard `Trainer`
pass the whole network output — the tuple of views, not `output[0]` — to the
criterion, which therefore raises a `TypeError` on every batch; the loss is
never computed from `output[0]`. -/
theorem standard_loss_type_error (A : Arch) (s : SState A) (b : Batch)
    (hc : s.criterion = crossEntropyLoss A.ceVal) :
    (Trainer.train_step A s b).1
      = Except.error ("TypeError: cross_entropy_loss(): argument input must be Tensor") ∧
    (Trainer.test_step A s b).1
      = Except.error ("TypeError: cross_entropy_loss(): argument input must be Tensor") := by
  constructor <;> simp [Trainer.train_step, Trainer.test_step, hc, crossEntropyLoss, Except.map]

/-- C5 witness: the type error evaluated on a concrete trainer and batch. -/
theorem standard_loss_type_error_witness :
    stCE.criterion = crossEntropyLoss arch0.ceVal ∧
    (Trainer.train_step arch0 stCE batch0).1
      = Except.error ("TypeError: cross_entropy_loss(): argument input must be Tensor") ∧
    (Trainer.test_step arch0 stCE batch0).1
      = Except.error ("TypeError: cross_entropy_loss(): argument input must be Tensor") :=
  ⟨rfl, (standard_loss_type_error arch0 stCE batch0 rfl).1,
    (standard_loss_type_error arch0 stCE batch0 rfl).2⟩

theorem standard_train_step_fst (A : Arch) (s : SState A) (b : Batch) :
    (Trainer.train_step A s b).1
      = (s.criterion (PyObj.tuple2 (PyObj.tensor2 (A.forward true s.netParams b).1)
          (PyObj.tensor2 (A.forward true s.netParams b).2)) b.label).map
        (fun loss =>
          { loss := loss, acc := accuracyOf (A.forward true s.netParams b).1 b.label }) := by
  cases hcr : s.criterion (PyObj.tuple2 (PyObj.tensor2 (A.forward true s.netParams b).1)
      (PyObj.tensor2 (A.forward true s.netParams b).2)) b.label <;>
    simp [Trainer.train_step, hcr, Except.map]

theorem standard_test_step_fst (A : Arch) (s : SState A) (b : Batch) :
    (Trainer.test_step A s b).1
      = (s.criterion (PyObj.tuple2 (PyObj.tensor2 (A.forward false s.netParams b).1)
          (PyObj.tensor2 (A.forward false s.netParams b).2)) b.label).map
        (fun loss =>
          { loss := loss, acc := accuracyOf (A.forward false s.netParams b).1 b.label }) :=
  rfl

/-- C8: the accuracy returned by any step function lies in [0, 1] and equals
the fraction of batch elements whose argmax prediction equals the label — for
the margin trainer the argmax is taken over the re-projected logits returned
by the margin criterion, for the standard trainer (whenever its criterion
call returns a value at all) over `output[0]`. -/
theorem step_accuracy_fraction_bounds (A : Arch) (t : MState A) (s : SState A) (b : Batch)
    (hn : 0 < b.label.length) :
    ((MarginTrainer.train_step A t b).1.acc
        = fractionCorrect
            (((A.crit t.critParams (A.forward true t.netParams b).2 b.label).2).map argmaxIdx)
            b.label ∧
      0 ≤ (MarginTrainer.train_step A t b).1.acc ∧
      (MarginTrainer.train_step A t b).1.acc ≤ 1) ∧
    ((MarginTrainer.test_step A t b).1.acc
        = fractionCorrect
            (((A.crit t.critParams (A.forward false t.netParams b).2 b.label).2).map argmaxIdx)
            b.label ∧
      0 ≤ (MarginTrainer.test_step A t b).1.acc ∧
      (MarginTrainer.test_step A t b).1.acc ≤ 1) ∧
    (∀ r, (Trainer.train_step A s b).1 = Except.ok r →
      r.acc = fractionCorrect ((A.forward true s.netParams b).1.map argmaxIdx) b.label ∧
      0 ≤ r.acc ∧ r.acc ≤ 1) ∧
    (∀ r, (Trainer.test_step A s b).1 = Except.ok r →
      r.acc = fractionCorrect ((A.forward false s.netParams b).1.map argmaxIdx) b.label ∧
      0 ≤ r.acc ∧ r.acc ≤ 1) := by
  refine ⟨⟨accuracyOf_eq_fractionCorrect _ _, accuracyOf_nonneg _ _,
      accuracyOf_le_one _ _ hn⟩,
    ⟨accuracyOf_eq_fractionCorrect _ _, accuracyOf_nonneg _ _, accuracyOf_le_one _ _ hn⟩,
    ?_, ?_⟩
  · intro r hr
    rw [standard_train_step_fst] at hr
    cases hcr : s.criterion (PyObj.tuple2 (PyObj.tensor2 (A.forward true s.netParams b).1)
        (PyObj.tensor2 (A.forward true s.netParams b).2)) b.label with
    | error e => rw [hcr] at hr; simp [Except.map] at hr
    | ok loss =>
      rw [hcr] at hr
      simp only [Except.map, Except.ok.injEq] at hr
      rw [← hr]
      exact ⟨accuracyOf_eq_fractionCorrect _ _, accuracyOf_nonneg _ _,
        accuracyOf_le_one _ _ hn⟩
  · intro r hr
    rw [standard_test_step_fst] at hr
    cases hcr : s.criterion (PyObj.tuple2 (PyObj.tensor2 (A.forward false s.netParams b).1)
        (PyObj.tensor2 (A.forward false s.netParams b).2)) b.label with
    | error e => rw [hcr] at hr; simp [Except.map] at hr
    | ok loss =>
      rw [hcr] at hr
      simp only [Except.map, Except.ok.injEq] at hr
      rw [← hr]
      exact ⟨accuracyOf_eq_fractionCorrect _ _, accuracyOf_nonneg _ _,
        accuracyOf_le_one _ _ hn⟩

/-- C8 witness: the accuracy contract instantiated on a concrete architecture,
trainers and a one-element batch. -/
theorem step_accuracy_fraction_bounds_witness :
    0 < batch0.label.length ∧
    (((MarginTrainer.train_step arch0 mt0 batch0).1.acc
        = fractionCorrect
            (((arch0.crit mt0.critParams (arch0.forward true mt0.netParams batch0).2
                batch0.label).2).map argmaxIdx) batch0.label ∧
      0 ≤ (MarginTrainer.train_step arch0 mt0 batch0).1.acc ∧
      (MarginTrainer.train_step arch0 mt0 batch0).1.acc ≤ 1) ∧
    ((MarginTrainer.test_step arch0 mt0 batch0).1.acc
        = fractionCorrect
            (((arch0.crit mt0.critParams (arch0.forward false mt0.netParams batch0).2
                batch0.label).2).map argmaxIdx) batch0.label ∧
      0 ≤ (MarginTrainer.test_step arch0 mt0 batch0).1.acc ∧
      (MarginTrainer.test_step arch0 mt0 batch0).1.acc ≤ 1) ∧
    (∀ r, (Trainer.train_step arch0 st0 batch0).1 = Except.ok r →
      r.acc = fractionCorrect ((arch0.forward true st0.netParams batch0).1.map argmaxIdx)
          batch0.label ∧
      0 ≤ r.acc ∧ r.acc ≤ 1) ∧
    (∀ r, (Trainer.test_step arch0 st0 batch0).1 = Except.ok r →
      r.acc = fractionCorrect ((arch0.forward false st0.netParams batch0).1.map argmaxIdx)
          batch0.label ∧
      0 ≤ r.acc ∧ r.acc ≤ 1)) :=
  ⟨by decide, step_accuracy_fraction_bounds arch0 mt0 st0 batch0 (by decide)⟩

/-- C1: saving all states and loading the written checkpoint into a fresh
trainer of the same architecture (same scheduler configuration) restores the
network parameters, the network-optimizer state, the criterion parameters and
the criterion-scheduler state, sets the saved epoch and global step, and a
`train_step` on the reloaded trainer returns the same loss and accuracy as on
the original, for any batch. -/
theorem save_load_roundtrip (A : Arch) (t tf : MState A) (path : String) (e gs : Int)
    (b : Batch) (hcfg : tf.scheduler.isSome = t.scheduler.isSome) :
    ∃ t' : MState A,
      MarginTrainer.load_all_states A tf (MarginTrainer.save_all_states A t path e gs).1
        = Except.ok t' ∧
      t'.netParams = t.netParams ∧
      t'.optState = t.optState ∧
      t'.critParams = t.critParams ∧
      t'.scheduler_criterion = t.scheduler_criterion ∧
      t'.start_epoch = e ∧
      t'.global_step = gs ∧
      (MarginTrainer.train_step A t' b).1 = (MarginTrainer.train_step A t b).1 := by
  cases ht : t.scheduler with
  | none =>
    have htf : tf.scheduler = none := by
      rw [ht] at hcfg
      cases h2 : tf.scheduler
      · rfl
      · rw [h2] at hcfg; simp at hcfg
    refine ⟨{ tf with
        netParams := t.netParams,
        optState := t.optState,
        critParams := t.critParams,
        scheduler_criterion := t.scheduler_criterion,
        start_epoch := e,
        global_step := gs }, ?_, rfl, rfl, rfl, rfl, rfl, rfl, rfl⟩
    simp [MarginTrainer.load_all_states, MarginTrainer.save_all_states, requireKey, htf,
      Except.bind, bind, pure, Except.pure]
  | some sch =>
    have htf : ∃ x, tf.scheduler = some x := by
      rw [ht] at hcfg
      cases h2 : tf.scheduler
      · rw [h2] at hcfg; simp at hcfg
      · exact ⟨_, rfl⟩
    obtain ⟨sch2, htf⟩ := htf
    refine ⟨{ tf with
        netParams := t.netParams,
        optState := t.optState,
        critParams := t.critParams,
        scheduler_criterion := t.scheduler_criterion,
        start_epoch := e,
        global_step := gs,
        scheduler := some sch }, ?_, rfl, rfl, rfl, rfl, rfl, rfl, rfl⟩
    simp [MarginTrainer.load_all_states, MarginTrainer.save_all_states, requireKey, htf, ht,
      Except.bind, bind, pure, Except.pure]

/-- C1 witness: the round trip on two concrete trainers sharing `arch0`. -/
theorem save_load_roundtrip_witness :
    mt1.scheduler.isSome = mt0.scheduler.isSome ∧
    (∃ t' : MState arch0,
      MarginTrainer.load_all_states arch0 mt1
          (MarginTrainer.save_all_states arch0 mt0 ("ckpt") 3 11).1
        = Except.ok t' ∧
      t'.netParams = mt0.netParams ∧
      t'.optState = mt0.optState ∧
      t'.critParams = mt0.critParams ∧
      t'.scheduler_criterion = mt0.scheduler_criterion ∧
      t'.start_epoch = 3 ∧
      t'.global_step = 11 ∧
      (MarginTrainer.train_step arch0 t' batch0).1
        = (MarginTrainer.train_step arch0 mt0 batch0).1) :=
  ⟨rfl, save_load_roundtrip arch0 mt0 mt1 ("ckpt") 3 11 batch0 rfl⟩

/-- C2 counterexample: loading a checkpoint that carries `epoch` and
`global_step` but lacks `state_dict_network` raises the `KeyError` only after
`start_epoch` and `global_step` have already been overwritten — trainer state
HAS been modified at the point the error is raised, contradicting the claim. -/
theorem load_partial_state_cex :
    MarginTrainer.load_all_states arch0 mt0 d0
      = Except.error ("state_dict_network", { mt0 with start_epoch := 5, global_step := 7 }) ∧
    mt0.start_epoch = 0 ∧
    ({ mt0 with start_epoch := 5, global_step := 7 } : MState arch0).start_epoch
      ≠ mt0.start_epoch :=
  ⟨rfl, rfl, by decide⟩

/-- C2 (amended): on a checkpoint missing one of the expected keys,
`load_all_states` raises a fatal `KeyError` naming the first missing key in
restore order; at the point the error is raised the trainer fields
corresponding to keys before the missing one have already been overwritten
with the checkpoint's values, and every field at or after the missing key is
unmodified (this is exactly the state `restorePrefix` describes). -/
theorem load_missing_key_prefix_restore (A : Arch) (t : MState A) (d : Checkpoint A)
    (k : CkptKey) (hk : firstMissing A d t.scheduler.isSome = some k) :
    MarginTrainer.load_all_states A t d = Except.error (k.name, restorePrefix A t d k) := by
  unfold firstMissing at hk
  cases hde : d.epoch with
  | none =>
    rw [hde] at hk
    simp only [Option.isNone_none, if_true, Option.some.injEq] at hk
    subst hk
    simp [MarginTrainer.load_all_states, requireKey, hde, restorePrefix, CkptKey.name,
      Except.bind, bind, pure, Except.pure]
  | some ve =>
    rw [hde] at hk
    simp only [Option.isNone_some, Bool.false_eq_true, if_false] at hk
    cases hdg : d.global_step with
    | none =>
      rw [hdg] at hk
      simp only [Option.isNone_none, if_true, Option.some.injEq] at hk
      subst hk
      simp [MarginTrainer.load_all_states, requireKey, hde, hdg, restorePrefix, CkptKey.name,
        Except.bind, bind, pure, Except.pure]
    | some vg =>
      rw [hdg] at hk
      simp only [Option.isNone_some, Bool.false_eq_true, if_false] at hk
      cases hdn : d.state_dict_network with
      | none =>
        rw [hdn] at hk
        simp only [Option.isNone_none, if_true, Option.some.injEq] at hk
        subst hk
        simp [MarginTrainer.load_all_states, requireKey, hde, hdg, hdn, restorePrefix,
          CkptKey.name, Except.bind, bind, pure, Except.pure]
      | some vn =>
        rw [hdn] at hk
        simp only [Option.isNone_some, Bool.false_eq_true, if_false] at hk
        cases hdo : d.state_optimizer with
        | none =>
          rw [hdo] at hk
          simp only [Option.isNone_none, if_true, Option.some.injEq] at hk
          subst hk
          simp [MarginTrainer.load_all_states, requireKey, hde, hdg, hdn, hdo, restorePrefix,
            CkptKey.name, Except.bind, bind, pure, Except.pure]
        | some vo =>
          rw [hdo] at hk
          simp only [Option.isNone_some, Bool.false_eq_true, if_false] at hk
          cases hdc : d.state_criterion with
          | none =>
            rw [hdc] at hk
            simp only [Option.isNone_none, if_true, Option.some.injEq] at hk
            subst hk
            simp [MarginTrainer.load_all_states, requireKey, hde, hdg, hdn, hdo, hdc,
              restorePrefix, CkptKey.name, Except.bind, bind, pure, Except.pure]
          | some vc =>
            rw [hdc] at hk
            simp only [Option.isNone_some, Bool.false_eq_true, if_false] at hk
            cases hdsc : d.state_lr_scheduler_criterion with
            | none =>
              rw [hdsc] at hk
              simp only [Option.isNone_none, if_true, Option.some.injEq] at hk
              subst hk
              simp [MarginTrainer.load_all_states, requireKey, hde, hdg, hdn, hdo, hdc, hdsc,
                restorePrefix, CkptKey.name, Except.bind, bind, pure, Except.pure]
            | some vsc =>
              rw [hdsc] at hk
              simp only [Option.isNone_some, Bool.false_eq_true, if_false] at hk
              cases hs : t.scheduler with
              | none =>
                rw [hs] at hk
                simp at hk
              | some vs =>
                rw [hs] at hk
                cases hdns : d.state_lr_scheduler with
                | none =>
                  rw [hdns] at hk
                  simp only [Option.isSome_some, Option.isNone_none, Bool.and_self,
                    if_true, Option.some.injEq] at hk
                  subst hk
                  simp [MarginTrainer.load_all_states, requireKey, hde, hdg, hdn, hdo, hdc,
                    hdsc, hdns, hs, restorePrefix, CkptKey.name, Except.bind, bind, pure,
                    Except.pure]
                | some vns =>
                  rw [hdns] at hk
                  simp at hk

/-- C2 amended-claim witness: the prefix-restore characterization evaluated on
the concrete checkpoint missing `state_dict_network`. -/
theorem load_missing_key_prefix_restore_witness :
    firstMissing arch0 d0 mt0.scheduler.isSome = some CkptKey.state_dict_network ∧
    MarginTrainer.load_all_states arch0 mt0 d0
      = Except.error (CkptKey.state_dict_network.name,
          restorePrefix arch0 mt0 d0 CkptKey.state_dict_network) :=
  ⟨rfl, load_missing_key_prefix_restore arch0 mt0 d0 CkptKey.state_dict_network rfl⟩

end TrainerModel
